import Mathlib

/-!
Verification of the unmute extension's voice-capture-to-delivery pipeline.

The definitions below are a shallow embedding of the TypeScript sources:
`src/unnamed/part_000` (the background service: TTS pipeline, local save,
Slack upload protocol, message listener) and `src/unnamed/part_002`
(the content script: recording state machine and hotkey toggle).
Network, storage and download effects are made explicit as an event trace;
platform primitives (`FileReader.readAsDataURL`, `atob`) are modelled by
their standard behaviour (RFC 4648 base64, data-URL serialization).
-/

namespace Unmute

/-! ## Base64: model of the platform primitives used by the source

`blobToBase64` (part_000:365) delegates encoding to `FileReader.readAsDataURL`
and strips the data-URL prefix with `result.split(',')[1]`; `base64ToBlob`
(part_000:759) decodes with `atob` and rebuilds the byte array via
`charCodeAt`.  We model bytes as `Nat` values below 256. -/

/-- The standard base64 character for a sextet value (`A-Z`, `a-z`, `0-9`, `+`, `/`). -/
def sextetChar (n : Nat) : Char :=
  if n < 26 then Char.ofNat (65 + n)
  else if n < 52 then Char.ofNat (97 + (n - 26))
  else if n < 62 then Char.ofNat (48 + (n - 52))
  else if n = 62 then '+'
  else '/'

/-- The sextet value of a base64 character (inverse of `sextetChar` on valid input). -/
def sextetVal (c : Char) : Nat :=
  if 65 ≤ c.toNat ∧ c.toNat ≤ 90 then c.toNat - 65
  else if 97 ≤ c.toNat ∧ c.toNat ≤ 122 then c.toNat - 97 + 26
  else if 48 ≤ c.toNat ∧ c.toNat ≤ 57 then c.toNat - 48 + 52
  else if c = '+' then 62
  else 63

/-- RFC 4648 base64 encoding of a byte list, as produced by the platform's
`FileReader.readAsDataURL` payload (with `=` padding). -/
def base64Encode : List Nat → List Char
  | [] => []
  | [b1] => [sextetChar (b1 / 4), sextetChar (b1 % 4 * 16), '=', '=']
  | [b1, b2] => [sextetChar (b1 / 4), sextetChar (b1 % 4 * 16 + b2 / 16),
      sextetChar (b2 % 16 * 4), '=']
  | b1 :: b2 :: b3 :: rest =>
      sextetChar (b1 / 4) :: sextetChar (b1 % 4 * 16 + b2 / 16) ::
      sextetChar (b2 % 16 * 4 + b3 / 64) :: sextetChar (b3 % 64) ::
      base64Encode rest

/-- Model of the platform's `atob` followed by per-character `charCodeAt`
(part_000:760-765): decodes four base64 characters into three bytes, with the
standard treatment of trailing `=` padding.  Agrees with `atob` on every
well-formed base64 string (the only inputs the source feeds it). -/
def atobChars : List Char → List Nat
  | c1 :: c2 :: c3 :: c4 :: rest =>
      if c3 = '=' then
        [sextetVal c1 * 4 + sextetVal c2 / 16]
      else if c4 = '=' then
        [sextetVal c1 * 4 + sextetVal c2 / 16,
         sextetVal c2 % 16 * 16 + sextetVal c3 / 4]
      else
        (sextetVal c1 * 4 + sextetVal c2 / 16) ::
        (sextetVal c2 % 16 * 16 + sextetVal c3 / 4) ::
        (sextetVal c3 % 4 * 64 + sextetVal c4) ::
        atobChars rest
  | _ => []

theorem sextetVal_sextetChar {n : Nat} (h : n < 64) : sextetVal (sextetChar n) = n := by
  have key : ∀ m : Fin 64, sextetVal (sextetChar m.val) = m.val := by decide
  exact key ⟨n, h⟩

theorem sextetChar_ne_pad {n : Nat} (h : n < 64) : sextetChar n ≠ '=' := by
  have key : ∀ m : Fin 64, sextetChar m.val ≠ '=' := by decide
  exact key ⟨n, h⟩

theorem sextetChar_ne_comma {n : Nat} (h : n < 64) : sextetChar n ≠ ',' := by
  have key : ∀ m : Fin 64, sextetChar m.val ≠ ',' := by decide
  exact key ⟨n, h⟩

theorem atobChars_cons (c1 c2 c3 c4 : Char) (rest : List Char) :
    atobChars (c1 :: c2 :: c3 :: c4 :: rest) =
      if c3 = '=' then
        [sextetVal c1 * 4 + sextetVal c2 / 16]
      else if c4 = '=' then
        [sextetVal c1 * 4 + sextetVal c2 / 16,
         sextetVal c2 % 16 * 16 + sextetVal c3 / 4]
      else
        (sextetVal c1 * 4 + sextetVal c2 / 16) ::
        (sextetVal c2 % 16 * 16 + sextetVal c3 / 4) ::
        (sextetVal c3 % 4 * 64 + sextetVal c4) ::
        atobChars rest := rfl

theorem atobChars_base64Encode :
    ∀ l : List Nat, (∀ b ∈ l, b < 256) → atobChars (base64Encode l) = l
  | [], _ => rfl
  | [b1], h => by
      have hb1 : b1 < 256 := h b1 (by simp)
      rw [show base64Encode [b1]
          = [sextetChar (b1 / 4), sextetChar (b1 % 4 * 16), '=', '='] from rfl]
      rw [atobChars_cons, if_pos rfl]
      rw [sextetVal_sextetChar (by omega), sextetVal_sextetChar (by omega)]
      have hv : b1 / 4 * 4 + b1 % 4 * 16 / 16 = b1 := by omega
      rw [hv]
  | [b1, b2], h => by
      have hb1 : b1 < 256 := h b1 (by simp)
      have hb2 : b2 < 256 := h b2 (by simp)
      rw [show base64Encode [b1, b2]
          = [sextetChar (b1 / 4), sextetChar (b1 % 4 * 16 + b2 / 16),
             sextetChar (b2 % 16 * 4), '='] from rfl]
      rw [atobChars_cons, if_neg (sextetChar_ne_pad (by omega)), if_pos rfl]
      rw [sextetVal_sextetChar (by omega), sextetVal_sextetChar (by omega),
        sextetVal_sextetChar (by omega)]
      have hv1 : b1 / 4 * 4 + (b1 % 4 * 16 + b2 / 16) / 16 = b1 := by omega
      have hv2 : (b1 % 4 * 16 + b2 / 16) % 16 * 16 + b2 % 16 * 4 / 4 = b2 := by omega
      rw [hv1, hv2]
  | [b1, b2, b3], h => by
      have hb1 : b1 < 256 := h b1 (by simp)
      have hb2 : b2 < 256 := h b2 (by simp)
      have hb3 : b3 < 256 := h b3 (by simp)
      rw [show base64Encode [b1, b2, b3]
          = sextetChar (b1 / 4) :: sextetChar (b1 % 4 * 16 + b2 / 16) ::
            sextetChar (b2 % 16 * 4 + b3 / 64) :: sextetChar (b3 % 64) ::
            base64Encode [] from rfl]
      rw [atobChars_cons, if_neg (sextetChar_ne_pad (by omega)),
        if_neg (sextetChar_ne_pad (by omega))]
      rw [sextetVal_sextetChar (by omega), sextetVal_sextetChar (by omega),
        sextetVal_sextetChar (by omega), sextetVal_sextetChar (by omega)]
      have hv1 : b1 / 4 * 4 + (b1 % 4 * 16 + b2 / 16) / 16 = b1 := by omega
      have hv2 : (b1 % 4 * 16 + b2 / 16) % 16 * 16 + (b2 % 16 * 4 + b3 / 64) / 4 = b2 := by
        omega
      have hv3 : (b2 % 16 * 4 + b3 / 64) % 4 * 64 + b3 % 64 = b3 := by omega
      rw [hv1, hv2, hv3]
      rfl
  | b1 :: b2 :: b3 :: b4 :: rest, h => by
      have hb1 : b1 < 256 := h b1 (by simp)
      have hb2 : b2 < 256 := h b2 (by simp)
      have hb3 : b3 < 256 := h b3 (by simp)
      have hrest : ∀ b ∈ b4 :: rest, b < 256 := fun b hb => h b (by simp [hb])
      have ih := atobChars_base64Encode (b4 :: rest) hrest
      rw [show base64Encode (b1 :: b2 :: b3 :: b4 :: rest)
          = sextetChar (b1 / 4) :: sextetChar (b1 % 4 * 16 + b2 / 16) ::
            sextetChar (b2 % 16 * 4 + b3 / 64) :: sextetChar (b3 % 64) ::
            base64Encode (b4 :: rest) from rfl]
      rw [atobChars_cons, if_neg (sextetChar_ne_pad (by omega)),
        if_neg (sextetChar_ne_pad (by omega))]
      rw [sextetVal_sextetChar (by omega), sextetVal_sextetChar (by omega),
        sextetVal_sextetChar (by omega), sextetVal_sextetChar (by omega)]
      have hv1 : b1 / 4 * 4 + (b1 % 4 * 16 + b2 / 16) / 16 = b1 := by omega
      have hv2 : (b1 % 4 * 16 + b2 / 16) % 16 * 16 + (b2 % 16 * 4 + b3 / 64) / 4 = b2 := by
        omega
      have hv3 : (b2 % 16 * 4 + b3 / 64) % 4 * 64 + b3 % 64 = b3 := by omega
      rw [hv1, hv2, hv3, ih]

theorem comma_not_mem_base64Encode :
    ∀ l : List Nat, (∀ b ∈ l, b < 256) → ',' ∉ base64Encode l
  | [], _ => by simp [base64Encode]
  | [b1], h => by
      have hb1 : b1 < 256 := h b1 (by simp)
      intro hmem
      simp only [base64Encode, List.mem_cons, List.not_mem_nil, or_false] at hmem
      rcases hmem with h1 | h1 | h1 | h1 <;>
        first
          | exact sextetChar_ne_comma (by omega) h1.symm
          | exact absurd h1 (by decide)
  | [b1, b2], h => by
      have hb1 : b1 < 256 := h b1 (by simp)
      have hb2 : b2 < 256 := h b2 (by simp)
      intro hmem
      simp only [base64Encode, List.mem_cons, List.not_mem_nil, or_false] at hmem
      rcases hmem with h1 | h1 | h1 | h1 <;>
        first
          | exact sextetChar_ne_comma (by omega) h1.symm
          | exact absurd h1 (by decide)
  | b1 :: b2 :: b3 :: rest, h => by
      have hb1 : b1 < 256 := h b1 (by simp)
      have hb2 : b2 < 256 := h b2 (by simp)
      have hb3 : b3 < 256 := h b3 (by simp)
      have hrest : ∀ b ∈ rest, b < 256 := fun b hb => h b (by simp [hb])
      have ih := comma_not_mem_base64Encode rest hrest
      intro hmem
      simp only [base64Encode, List.mem_cons] at hmem
      rcases hmem with h1 | h1 | h1 | h1 | h1
      · exact sextetChar_ne_comma (by omega) h1.symm
      · exact sextetChar_ne_comma (by omega) h1.symm
      · exact sextetChar_ne_comma (by omega) h1.symm
      · exact sextetChar_ne_comma (by omega) h1.symm
      · exact ih h1

/-! ## Blobs and the data-URL round trip -/

/-- A binary blob: its byte sequence together with its MIME content type,
as in the platform's `Blob` objects. -/
structure Blob where
  bytes : List Nat
  type : String
deriving DecidableEq

/-- JavaScript's `String.prototype.split` on a single-character separator,
on the character-list view of the string. -/
def splitOnChar (sep : Char) : List Char → List (List Char)
  | [] => [[]]
  | c :: rest =>
      match splitOnChar sep rest with
      | [] => [[]]
      | g :: gs => if c = sep then [] :: g :: gs else (c :: g) :: gs

theorem splitOnChar_cons (sep c : Char) (rest : List Char) :
    splitOnChar sep (c :: rest) =
      match splitOnChar sep rest with
      | [] => [[]]
      | g :: gs => if c = sep then [] :: g :: gs else (c :: g) :: gs := rfl

theorem splitOnChar_ne_nil (sep : Char) : ∀ l : List Char, splitOnChar sep l ≠ []
  | [] => by simp [splitOnChar]
  | c :: rest => by
      have ih := splitOnChar_ne_nil sep rest
      rw [splitOnChar_cons]
      rcases hrec : splitOnChar sep rest with _ | ⟨g, gs⟩
      · exact absurd hrec ih
      · dsimp only
        split <;> simp

theorem splitOnChar_of_not_mem (sep : Char) :
    ∀ l : List Char, sep ∉ l → splitOnChar sep l = [l]
  | [], _ => rfl
  | c :: rest, h => by
      have hc : c ≠ sep := fun hcs => h (by simp [hcs])
      have ih := splitOnChar_of_not_mem sep rest (fun hm => h (by simp [hm]))
      rw [splitOnChar_cons, ih]
      dsimp only
      rw [if_neg hc]

theorem splitOnChar_append (sep : Char) :
    ∀ pre : List Char, sep ∉ pre → ∀ post : List Char,
      splitOnChar sep (pre ++ sep :: post) = pre :: splitOnChar sep post
  | [], _, post => by
      rw [List.nil_append, splitOnChar_cons]
      rcases hrec : splitOnChar sep post with _ | ⟨g, gs⟩
      · exact absurd hrec (splitOnChar_ne_nil sep post)
      · dsimp only
        rw [if_pos rfl, ← hrec]
  | c :: pre, h, post => by
      have hc : c ≠ sep := fun hcs => h (by simp [hcs])
      have ih := splitOnChar_append sep pre (fun hm => h (by simp [hm])) post
      rw [List.cons_append, splitOnChar_cons, ih]
      dsimp only
      rw [if_neg hc]

/-- Model of `FileReader.readAsDataURL`: the data URL for a blob, as a
character list — `data:<type>;base64,<payload>`. -/
def dataUrlChars (b : Blob) : List Char :=
  ("data:" ++ b.type ++ ";base64,").data ++ base64Encode b.bytes

/-- `blobToBase64` (part_000:365-377): read the blob as a data URL and keep
what stands after the first comma (`result.split(',')[1]`). -/
def blobToBase64 (b : Blob) : List Char :=
  (splitOnChar ',' (dataUrlChars b)).getD 1 []

/-- `base64ToBlob` (part_000:759-769): decode with `atob`, take the character
codes into a byte array, and wrap them in a blob of the given content type. -/
def base64ToBlob (base64Data : List Char) (contentType : String) : Blob :=
  { bytes := atobChars base64Data, type := contentType }

theorem dataUrlChars_decomp (b : Blob) :
    dataUrlChars b =
      ("data:".data ++ b.type.data ++ ";base64".data) ++ ',' :: base64Encode b.bytes := by
  unfold dataUrlChars
  have h1 : ("data:" ++ b.type ++ ";base64,").data
      = "data:".data ++ b.type.data ++ ";base64,".data := by
    cases b with
    | mk bytes t => cases t with
      | mk l => rfl
  have h2 : (";base64,").data = ";base64".data ++ [','] := by decide
  rw [h1, h2]
  simp [List.append_assoc]

/-- C10: the base64 decode of `blobToBase64`'s output recovers the blob's
byte sequence, for every blob with genuine bytes (values below 256) and a
well-formed MIME content type (no comma — the comma is not a MIME token
character) and for every target content type `t`. -/
theorem base64_roundtrip (b : Blob) (t : String)
    (hbytes : ∀ x ∈ b.bytes, x < 256) (htype : ',' ∉ b.type.data) :
    (base64ToBlob (blobToBase64 b) t).bytes = b.bytes := by
  have hpre : ',' ∉ "data:".data ++ b.type.data ++ ";base64".data := by
    intro hmem
    rcases List.mem_append.mp hmem with hmem' | hmem'
    · rcases List.mem_append.mp hmem' with hmem'' | hmem''
      · exact absurd hmem'' (by decide)
      · exact htype hmem''
    · exact absurd hmem' (by decide)
  have hsplit : splitOnChar ',' (dataUrlChars b)
      = ("data:".data ++ b.type.data ++ ";base64".data) :: [base64Encode b.bytes] := by
    rw [dataUrlChars_decomp, splitOnChar_append ',' _ hpre,
      splitOnChar_of_not_mem ',' _ (comma_not_mem_base64Encode b.bytes hbytes)]
  unfold base64ToBlob blobToBase64
  rw [hsplit]
  simp only [List.getD, List.getElem?_cons_succ, List.getElem?_cons_zero, Option.getD_some]
  exact atobChars_base64Encode b.bytes hbytes

/-- C10 witness: the round trip evaluated on a concrete blob. -/
theorem base64_roundtrip_witness :
    (base64ToBlob (blobToBase64 ⟨[0, 77, 255, 10], "audio/mpeg"⟩) "audio/mpeg").bytes
      = [0, 77, 255, 10] :=
  base64_roundtrip ⟨[0, 77, 255, 10], "audio/mpeg"⟩ "audio/mpeg"
    (by decide) (by decide)

/-! ## Timestamp-derived filenames

`generateTTSAndSaveLocally` (part_000:276-281) computes
`const timestamp = Date.now(); const filename = ` the template literal
`voice_note_<timestamp>.mp3`; we model the template literal's decimal
rendering of the epoch-millisecond timestamp. -/

/-- Decimal rendering of a natural number, as the JavaScript template
literal renders an integer timestamp. -/
def decimalChars (n : Nat) : List Char :=
  if n = 0 then ['0'] else ((Nat.digits 10 n).map Nat.digitChar).reverse

/-- Numeric value of a decimal digit character (left inverse of `Nat.digitChar`
on digits). -/
def charDigitVal (c : Char) : Nat := c.toNat - 48

/-- Decode a big-endian decimal digit string back to the number. -/
def decodeDecimal (cs : List Char) : Nat :=
  Nat.ofDigits 10 ((cs.map charDigitVal).reverse)

theorem decodeDecimal_decimalChars (n : Nat) : decodeDecimal (decimalChars n) = n := by
  unfold decimalChars decodeDecimal
  by_cases h0 : n = 0
  · subst h0
    simp [Nat.ofDigits, charDigitVal]
  · rw [if_neg h0]
    have hmap : ((((Nat.digits 10 n).map Nat.digitChar).reverse.map charDigitVal).reverse)
        = Nat.digits 10 n := by
      rw [← List.map_reverse, List.reverse_reverse, List.map_map]
      have : ∀ d ∈ Nat.digits 10 n, (charDigitVal ∘ Nat.digitChar) d = id d := by
        intro d hd
        have hd10 : d < 10 := Nat.digits_lt_base (by norm_num) hd
        have key : ∀ m : Fin 10, charDigitVal (Nat.digitChar m.val) = m.val := by decide
        exact key ⟨d, hd10⟩
      rw [List.map_congr_left this, List.map_id]
    rw [hmap, Nat.ofDigits_digits]

theorem decimalChars_injective : Function.Injective decimalChars :=
  Function.LeftInverse.injective decodeDecimal_decimalChars

/-- The audio filename derived from the epoch-millisecond timestamp
(part_000:277-278): `voice_note_<epoch-ms>.mp3`. -/
def voiceNoteFilename (timestamp : Nat) : String :=
  "voice_note_" ++ String.mk (decimalChars timestamp) ++ ".mp3"

/-- The fixed destination path under the download area (part_000:279):
`unmute/audio/<filename>`. -/
def voiceNoteFullPath (timestamp : Nat) : String :=
  "unmute/audio/" ++ voiceNoteFilename timestamp

theorem voiceNoteFilename_injective : Function.Injective voiceNoteFilename := by
  intro a b hab
  apply decimalChars_injective
  unfold voiceNoteFilename at hab
  have hdata := congrArg String.data hab
  simp only [String.data_append] at hdata
  exact List.append_cancel_left (List.append_cancel_right hdata)

/-! ## Background service: configuration, effect events, upload protocol

Shallow embedding of `BackgroundService` (part_000).  Every effectful step
is recorded in an explicit event trace; the responses of the network, the
storage and the download area are supplied by environment records, so each
source function becomes a pure trace-producing function. -/

/-- Messaging credentials (`slackConfig` in `chrome.storage.local`). -/
structure SlackConfig where
  channelId : String
  userToken : String
deriving DecidableEq

/-- Synthesis credentials (`fishConfig` in `chrome.storage.local`). -/
structure FishConfig where
  apiKey : String
  voiceId : String
deriving DecidableEq

/-- The guard `!config || !config.channelId || !config.userToken`
(part_000:384): a stored record with an empty (falsy) field counts as
not configured. -/
def checkedSlackConfig : Option SlackConfig → Option SlackConfig
  | none => none
  | some c => if c.channelId = "" ∨ c.userToken = "" then none else some c

/-- The guard `!config || !config.apiKey || !config.voiceId` (part_000:239). -/
def checkedFishConfig : Option FishConfig → Option FishConfig
  | none => none
  | some c => if c.apiKey = "" ∨ c.voiceId = "" then none else some c

/-- A file descriptor as submitted in the commit call's `files` list:
`{ id, title }` (part_000:605-608). -/
structure FileDescriptor where
  id : String
  title : String
deriving DecidableEq

/-- One observable effect of the background service. -/
inductive Event where
  /-- `POST https://slack.com/api/files.getUploadURLExternal` with form data
  `filename`, `length`. -/
  | netGetUploadURL (filename : String) (length : Nat)
  /-- `POST` of the raw payload bytes to an obtained upload URL. -/
  | netPostBytes (url : String)
  /-- `POST https://slack.com/api/files.completeUploadExternal` — the commit
  call, with its file list, channel and optional initial comment. -/
  | netCompleteUpload (files : List FileDescriptor) (channelId : String)
      (initialComment : Option String)
  /-- `POST https://api.fish.audio/v1/tts` — the synthesis request. -/
  | netTTS (text : String) (voiceId : String)
  /-- `fetch` of the bundled companion image. -/
  | netFetchImage (url : String)
  /-- `chrome.storage.local.get` of a key. -/
  | storageGet (key : String)
  /-- `chrome.storage.local.set` of a key. -/
  | storageSet (key : String)
  /-- `chrome.downloads.download` targeting a path. -/
  | download (path : String)
  /-- A console diagnostic. -/
  | logMsg (s : String)
deriving DecidableEq

/-- Network calls are the five `fetch`-backed events. -/
def isNetworkEvent : Event → Bool
  | .netGetUploadURL _ _ => true
  | .netPostBytes _ => true
  | .netCompleteUpload _ _ _ => true
  | .netTTS _ _ => true
  | .netFetchImage _ => true
  | _ => false

def isStorageWrite : Event → Bool
  | .storageSet _ => true
  | _ => false

def isDownloadEvent : Event → Bool
  | .download _ => true
  | _ => false

def isCommitEvent : Event → Bool
  | .netCompleteUpload _ _ _ => true
  | _ => false

/-- The commit calls occurring in a trace, each with its submitted file
list, target channel and optional initial comment. -/
def commitCalls (tr : List Event) : List (List FileDescriptor × String × Option String) :=
  tr.filterMap fun e =>
    match e with
    | .netCompleteUpload files ch ic => some (files, ch, ic)
    | _ => none

/-- An upload slot returned by `files.getUploadURLExternal`. -/
structure UploadSlot where
  upload_url : String
  file_id : String
deriving DecidableEq

/-- Responses of the Slack service: `none` from `getUploadURL` models an
`ok: false` slot-acquisition response; `postBytesOk` is the HTTP success of
the byte transfer; `completeOk` the `ok` field of the commit response. -/
structure SlackEnv where
  getUploadURL : String → Nat → Option UploadSlot
  postBytesOk : String → Bool
  completeOk : Bool

/-- The condition `message && message.trim()` (part_000:613): the comment is
attached only when the message has a non-whitespace character. -/
def hasContent (s : String) : Bool :=
  s.data.any fun c => !c.isWhitespace

/-- `uploadFileToSlack` (part_000:564-637): acquire a slot, transfer the
bytes, then commit this single file to the channel; each failed step logs
and returns without the later steps. -/
def uploadFileToSlack (env : SlackEnv) (fileBlob : Blob) (filename message : String)
    (config : SlackConfig) : List Event :=
  Event.netGetUploadURL filename fileBlob.bytes.length ::
  match env.getUploadURL filename fileBlob.bytes.length with
  | none => [Event.logMsg "Failed to get upload URL"]
  | some slot =>
    Event.netPostBytes slot.upload_url ::
    if env.postBytesOk slot.upload_url then
      Event.netCompleteUpload [⟨slot.file_id, filename⟩] config.channelId
        (if hasContent message then some message else none) ::
      (if env.completeOk then [Event.logMsg "File uploaded successfully"]
       else [Event.logMsg "Failed to complete upload"])
    else [Event.logMsg "File upload failed"]

/-- `uploadImageToSlack` (part_000:503-562): the image job's variant of the
three steps; its commit call never carries an initial comment. -/
def uploadImageToSlack (env : SlackEnv) (imageBlob : Blob) (filename : String)
    (config : SlackConfig) : List Event :=
  Event.netGetUploadURL filename imageBlob.bytes.length ::
  match env.getUploadURL filename imageBlob.bytes.length with
  | none => [Event.logMsg "Failed to get upload URL for image"]
  | some slot =>
    Event.netPostBytes slot.upload_url ::
    if env.postBytesOk slot.upload_url then
      Event.netCompleteUpload [⟨slot.file_id, filename⟩] config.channelId none ::
      (if env.completeOk then [Event.logMsg "Image uploaded successfully for display"]
       else [Event.logMsg "Failed to complete image upload"])
    else [Event.logMsg "Image upload failed"]

/-- The bundled companion image's filename (part_000:414). -/
def spongebobFilename : String := "spongebob.png"

/-- Environment of one background pipeline run: stored configuration,
Slack responses, the synthesis response (`none` models a non-2xx reply),
the companion-image fetch result (`none` models a failed load), the
download outcome and the current epoch-millisecond clock. -/
structure BackgroundEnv where
  slackConfig : Option SlackConfig
  fishConfig : Option FishConfig
  slack : SlackEnv
  ttsResult : Option Blob
  imageResult : Option Blob
  saveOk : Bool
  now : Nat

/-- `sendSlackAudioAndImage` (part_000:379-424): read the messaging config
(skip everything when absent), fetch the companion image, then upload the
audio first and the image second — or the audio alone when the image
failed to load. -/
def sendSlackAudioAndImage (env : BackgroundEnv) (audioBlob : Blob)
    (filename message : String) : List Event :=
  Event.storageGet "slackConfig" ::
  match checkedSlackConfig env.slackConfig with
  | none => [Event.logMsg "Slack not configured, skipping uploads"]
  | some config =>
    Event.netFetchImage "images/spongebob.png" ::
    match env.imageResult with
    | some imageBlob =>
        uploadFileToSlack env.slack audioBlob filename "" config ++
        uploadImageToSlack env.slack imageBlob spongebobFilename config
    | none =>
        Event.logMsg "Failed to load SpongeBob image" ::
        Event.logMsg "Proceeding with audio upload only" ::
        uploadFileToSlack env.slack audioBlob filename "" config

/-- `saveAudioToDownloads` (part_000:317-352): convert the blob and start a
download of the full path; every error is caught inside and only logged,
so the function always returns normally. -/
def saveAudioToDownloads (saveOk : Bool) (fullPath : String) : List Event :=
  Event.download fullPath ::
  (if saveOk then [Event.logMsg "Download started successfully"]
   else [Event.logMsg "Download error"])

/-- The Slack comment attached to the voice note (part_000:288). -/
def voiceNoteMessage (text : String) : String :=
  "🎤 Voice note: \"" ++ text ++ "\""

/-- `generateTTSAndSaveLocally` (part_000:228-315): check the synthesis
config, call the synthesis endpoint, then (on success) save the audio
locally and hand it to the Slack upload sequence; returns whether the
synthesis succeeded. -/
def generateTTSAndSaveLocally (env : BackgroundEnv) (text : String) :
    List Event × Bool :=
  match checkedFishConfig env.fishConfig with
  | none => ([Event.storageGet "fishConfig"], false)
  | some config =>
    match env.ttsResult with
    | none => ([Event.storageGet "fishConfig", Event.netTTS text config.voiceId], false)
    | some audioBlob =>
      (Event.storageGet "fishConfig" :: Event.netTTS text config.voiceId ::
        (saveAudioToDownloads env.saveOk (voiceNoteFullPath env.now) ++
         sendSlackAudioAndImage env audioBlob (voiceNoteFilename env.now)
           (voiceNoteMessage text)),
       true)

/-- The pipeline outcome of §4.2 of the specification, read off a run:
which of synthesis, local save and delivery commit happened. -/
structure PipelineOutcome where
  synthesized : Bool
  saved : Bool
  delivered : Bool
deriving DecidableEq

def outcomeOf (run : List Event × Bool) : PipelineOutcome :=
  { synthesized := run.2
    saved := run.1.any isDownloadEvent
    delivered := run.1.any isCommitEvent }

/-! ## Content script: recording state machine

Shallow embedding of `ContentScript` (part_002): `isRecording` is the only
stored state (set in `onstart`, cleared in `onerror`/`onend`); the field
`finalHandedOver` is a ghost flag marking the specification's `Finalizing`
stage — a final transcript has been handed across the context boundary
(`handleFinalTranscript`, part_002:305) and the session's `onend` has not
yet completed. -/

structure RecState where
  isRecording : Bool
  finalHandedOver : Bool
deriving DecidableEq

def recInit : RecState := { isRecording := false, finalHandedOver := false }

/-- Recognition-engine callbacks consumed by the content script
(part_002:176-212). -/
inductive RecEvent where
  | onStart
  | onResultInterim
  | onResultFinal
  | onError
  | onEnd
deriving DecidableEq

/-- The state updates of the engine callbacks: `onstart` sets `isRecording`,
`onerror` and `onend` clear it (part_002:176-212); a final result hands the
transcript across the boundary (ghost flag set), and the session's
termination callbacks complete the `Finalizing` stage (ghost flag
cleared). -/
def recStep (s : RecState) : RecEvent → RecState
  | .onStart => { s with isRecording := true }
  | .onResultInterim => s
  | .onResultFinal => { s with finalHandedOver := true }
  | .onError => { isRecording := false, finalHandedOver := false }
  | .onEnd => { isRecording := false, finalHandedOver := false }

def recRun (s : RecState) (tr : List RecEvent) : RecState :=
  tr.foldl recStep s

/-- Engine contract: result callbacks are only delivered while a session is
running (between `onstart` and the session's `onerror`/`onend`). -/
def wfFrom (s : RecState) : List RecEvent → Bool
  | [] => true
  | e :: rest =>
      ((e != RecEvent.onResultFinal && e != RecEvent.onResultInterim)
        || s.isRecording) && wfFrom (recStep s e) rest

/-- What a hotkey press does (`toggleSpeechRecording`, part_002:218-236):
with no recognition capability it only shows an error; otherwise it stops
the current session when `isRecording` and starts a new one only when not. -/
inductive ToggleAction where
  | unavailableError
  | stopSession
  | startSession
deriving DecidableEq

def toggleSpeechRecording (recognitionAvailable : Bool) (s : RecState) : ToggleAction :=
  if !recognitionAvailable then ToggleAction.unavailableError
  else if s.isRecording then ToggleAction.stopSession
  else ToggleAction.startSession

/-! ## Background message listener

Shallow embedding of `setupMessageListener` (part_000:153-188).  The three
dispatched handlers are summarised by an environment giving, for each, the
trace it produces or the exception it throws (`Except.error`); the listener
body's `try`/`catch` turns a thrown exception into the error response. -/

/-- A cross-context response object as passed to `sendResponse`. -/
structure SResponse where
  status : String
  message : Option String := none
  audioSaved : Option Bool := none
deriving DecidableEq

/-- An inbound cross-context message (action tag plus the fields the
handlers read). -/
structure InboundMessage where
  action : String
  text : String := ""
  messageText : Option String := none
  audioData : String := ""
  filename : String := ""

/-- Outcomes of the three dispatched handler methods: the produced trace,
or the internal exception the listener's `catch` receives. -/
structure HandlerEnv where
  sendSlackNotification : String → Except String (List Event)
  generateTTS : String → Except String (List Event × Bool)
  sendSlackAudio : String → String → Option String → Except String (List Event)

/-- The defaulting `message.message || '🎤 microphone triggered'`
(part_000:163): an absent or empty (falsy) message falls back to the
default text. -/
def defaultedMessageText : Option String → String
  | some t => if t = "" then "🎤 microphone triggered" else t
  | none => "🎤 microphone triggered"

/-- The listener body (part_000:160-187): dispatch on the action tag inside
`try`/`catch`, call `sendResponse` once per path, and return `true` to
signal an asynchronous response.  Result: (trace, responses sent, returned
boolean). -/
def messageListener (env : HandlerEnv) (msg : InboundMessage) :
    List Event × List SResponse × Bool :=
  if msg.action = "sendSlackMessage" then
    match env.sendSlackNotification (defaultedMessageText msg.messageText) with
    | .ok tr => (tr, [{ status := "success" }], true)
    | .error _ => ([], [{ status := "error", message := some "Handler error" }], true)
  else if msg.action = "generateTTSAndSaveLocally" then
    match env.generateTTS msg.text with
    | .ok (tr, saved) => (tr, [{ status := "success", audioSaved := some saved }], true)
    | .error _ => ([], [{ status := "error", message := some "Handler error" }], true)
  else if msg.action = "sendSlackAudio" then
    match env.sendSlackAudio msg.audioData msg.filename msg.messageText with
    | .ok tr => (tr, [{ status := "success" }], true)
    | .error _ => ([], [{ status := "error", message := some "Handler error" }], true)
  else
    ([], [{ status := "error", message := some "Unknown action" }], true)

/-! ## Helper lemmas on traces -/

theorem commitCalls_nil : commitCalls [] = [] := rfl

theorem commitCalls_cons_storageGet (k : String) (t : List Event) :
    commitCalls (Event.storageGet k :: t) = commitCalls t := rfl

theorem commitCalls_cons_log (s : String) (t : List Event) :
    commitCalls (Event.logMsg s :: t) = commitCalls t := rfl

theorem commitCalls_cons_fetchImage (u : String) (t : List Event) :
    commitCalls (Event.netFetchImage u :: t) = commitCalls t := rfl

theorem commitCalls_cons_getUploadURL (f : String) (l : Nat) (t : List Event) :
    commitCalls (Event.netGetUploadURL f l :: t) = commitCalls t := rfl

theorem commitCalls_cons_postBytes (u : String) (t : List Event) :
    commitCalls (Event.netPostBytes u :: t) = commitCalls t := rfl

theorem commitCalls_cons_download (p : String) (t : List Event) :
    commitCalls (Event.download p :: t) = commitCalls t := rfl

theorem commitCalls_cons_tts (x v : String) (t : List Event) :
    commitCalls (Event.netTTS x v :: t) = commitCalls t := rfl

theorem commitCalls_cons_complete (files : List FileDescriptor) (ch : String)
    (ic : Option String) (t : List Event) :
    commitCalls (Event.netCompleteUpload files ch ic :: t)
      = (files, ch, ic) :: commitCalls t := rfl

theorem commitCalls_append (a b : List Event) :
    commitCalls (a ++ b) = commitCalls a ++ commitCalls b := by
  unfold commitCalls
  rw [List.filterMap_append]

/-- A per-job failure of the upload protocol: the slot acquisition answers
not-ok, or the byte transfer to the obtained slot answers non-success. -/
def JobFails (env : SlackEnv) (filename : String) (len : Nat) : Prop :=
  env.getUploadURL filename len = none ∨
  ∀ slot, env.getUploadURL filename len = some slot →
    env.postBytesOk slot.upload_url = false

theorem commitCalls_uploadFile_nil (env : SlackEnv) (fileBlob : Blob)
    (filename message : String) (config : SlackConfig)
    (h : JobFails env filename fileBlob.bytes.length) :
    commitCalls (uploadFileToSlack env fileBlob filename message config) = [] := by
  unfold uploadFileToSlack
  rcases hslot : env.getUploadURL filename fileBlob.bytes.length with _ | slot
  · simp [commitCalls]
  · rcases h with h | h
    · rw [hslot] at h
      cases h
    · have hpost := h slot hslot
      simp [hpost, commitCalls]

theorem commitCalls_uploadImage_nil (env : SlackEnv) (imageBlob : Blob)
    (filename : String) (config : SlackConfig)
    (h : JobFails env filename imageBlob.bytes.length) :
    commitCalls (uploadImageToSlack env imageBlob filename config) = [] := by
  unfold uploadImageToSlack
  rcases hslot : env.getUploadURL filename imageBlob.bytes.length with _ | slot
  · simp [commitCalls]
  · rcases h with h | h
    · rw [hslot] at h
      cases h
    · have hpost := h slot hslot
      simp [hpost, commitCalls]

/-- Reachability invariant of the recording state machine: along
engine-contract-respecting traces, whenever a final transcript has been
handed over and the session's end has not completed, `isRecording` is still
set. -/
theorem recRun_invariant : ∀ (tr : List RecEvent) (s : RecState),
    wfFrom s tr = true → (s.finalHandedOver = true → s.isRecording = true) →
    (recRun s tr).finalHandedOver = true → (recRun s tr).isRecording = true
  | [], _, _, hinv => hinv
  | e :: rest, s, hwf, hinv => by
      simp only [wfFrom, Bool.and_eq_true] at hwf
      obtain ⟨hhead, htail⟩ := hwf
      have hinv' : (recStep s e).finalHandedOver = true →
          (recStep s e).isRecording = true := by
        cases e with
        | onStart => intro _; rfl
        | onResultInterim => exact hinv
        | onResultFinal =>
            intro _
            simp only [Bool.or_eq_true, Bool.and_eq_true, bne_iff_ne, ne_eq,
              not_true_eq_false, false_and, false_or] at hhead
            exact hhead
        | onError => intro h; exact absurd h (by simp [recStep])
        | onEnd => intro h; exact absurd h (by simp [recStep])
      exact recRun_invariant rest (recStep s e) htail hinv'

/-! ## The claims -/

/-- C2: a hotkey press arriving while the recording machine is still in
`Finalizing` for the previous session (final transcript handed across the
boundary, end event not yet completed) asks the existing session to stop
and never starts a new recognition session. -/
theorem finalizing_press_ignored (tr : List RecEvent)
    (hwf : wfFrom recInit tr = true)
    (hfin : (recRun recInit tr).finalHandedOver = true) :
    toggleSpeechRecording true (recRun recInit tr) = ToggleAction.stopSession ∧
    toggleSpeechRecording true (recRun recInit tr) ≠ ToggleAction.startSession := by
  have hrec : (recRun recInit tr).isRecording = true :=
    recRun_invariant tr recInit hwf (fun h => absurd h (by simp [recInit])) hfin
  constructor
  · simp [toggleSpeechRecording, hrec]
  · simp [toggleSpeechRecording, hrec]

/-- C2 witness: a session that started and delivered a final result is in
`Finalizing`; the press maps to a stop. -/
theorem finalizing_press_ignored_witness :
    wfFrom recInit [RecEvent.onStart, RecEvent.onResultFinal] = true ∧
    toggleSpeechRecording true
      (recRun recInit [RecEvent.onStart, RecEvent.onResultFinal])
      = ToggleAction.stopSession :=
  ⟨by decide,
   (finalizing_press_ignored [RecEvent.onStart, RecEvent.onResultFinal]
     (by decide) (by decide)).1⟩

/-- C3: when the synthesis configuration is absent or missing the API key
or the voice id, the pipeline run makes zero network calls and reports the
all-false outcome. -/
theorem config_missing_aborts (env : BackgroundEnv) (text : String)
    (h : env.fishConfig = none ∨
      ∃ c, env.fishConfig = some c ∧ (c.apiKey = "" ∨ c.voiceId = "")) :
    (generateTTSAndSaveLocally env text).1.filter isNetworkEvent = [] ∧
    outcomeOf (generateTTSAndSaveLocally env text)
      = ⟨false, false, false⟩ := by
  have hc : checkedFishConfig env.fishConfig = none := by
    rcases h with h | ⟨c, hcfg, hfield⟩
    · rw [h]
      rfl
    · rw [hcfg]
      simp [checkedFishConfig, hfield]
  unfold generateTTSAndSaveLocally
  rw [hc]
  exact ⟨rfl, rfl⟩

/-- A Slack service that fails every request. -/
def failSlackEnv : SlackEnv :=
  { getUploadURL := fun _ _ => none, postBytesOk := fun _ => false, completeOk := false }

/-- A run environment with no stored configuration at all. -/
def emptyBenv : BackgroundEnv :=
  { slackConfig := none, fishConfig := none, slack := failSlackEnv,
    ttsResult := none, imageResult := none, saveOk := false, now := 0 }

/-- C3 witness: with no synthesis configuration stored, the run is
network-silent and all-false. -/
theorem config_missing_aborts_witness :
    (generateTTSAndSaveLocally emptyBenv "hello").1.filter isNetworkEvent = [] ∧
    outcomeOf (generateTTSAndSaveLocally emptyBenv "hello")
      = ⟨false, false, false⟩ :=
  config_missing_aborts emptyBenv "hello" (Or.inl rfl)

/-- C4: for every inbound message and every behaviour of the dispatched
handlers — including an internal exception, which the `catch` converts to
an error response — the listener calls `sendResponse` exactly once and
returns `true` to signal an asynchronous response; being a total function
of the message and handler outcomes, it propagates no fault. -/
theorem listener_responds_once (env : HandlerEnv) (msg : InboundMessage) :
    (messageListener env msg).2.1.length = 1 ∧
    (messageListener env msg).2.2 = true := by
  unfold messageListener
  by_cases h1 : msg.action = "sendSlackMessage"
  · rw [if_pos h1]
    cases env.sendSlackNotification (defaultedMessageText msg.messageText) <;> simp
  · rw [if_neg h1]
    by_cases h2 : msg.action = "generateTTSAndSaveLocally"
    · rw [if_pos h2]
      rcases env.generateTTS msg.text with e | ⟨tr, saved⟩ <;> simp
    · rw [if_neg h2]
      by_cases h3 : msg.action = "sendSlackAudio"
      · rw [if_pos h3]
        cases env.sendSlackAudio msg.audioData msg.filename msg.messageText <;> simp
      · rw [if_neg h3]
        simp

/-- C9: an inbound message whose action is none of the three known tags is
answered with exactly the unknown-action error response, with no network
call and no storage write. -/
theorem unknown_action_response (env : HandlerEnv) (msg : InboundMessage)
    (h1 : msg.action ≠ "sendSlackMessage")
    (h2 : msg.action ≠ "generateTTSAndSaveLocally")
    (h3 : msg.action ≠ "sendSlackAudio") :
    (messageListener env msg).2.1
      = [{ status := "error", message := some "Unknown action" }] ∧
    (messageListener env msg).1.filter isNetworkEvent = [] ∧
    (messageListener env msg).1.filter isStorageWrite = [] := by
  unfold messageListener
  rw [if_neg h1, if_neg h2, if_neg h3]
  exact ⟨rfl, rfl, rfl⟩

/-- Handlers that always succeed with an empty trace. -/
def trivialHandlerEnv : HandlerEnv :=
  { sendSlackNotification := fun _ => .ok []
    generateTTS := fun _ => .ok ([], false)
    sendSlackAudio := fun _ _ _ => .ok [] }

/-- C9 witness: the listener's reply to a concrete unknown action. -/
theorem unknown_action_response_witness :
    (messageListener trivialHandlerEnv { action := "bogus" }).2.1
      = [{ status := "error", message := some "Unknown action" }] ∧
    (messageListener trivialHandlerEnv { action := "bogus" }).1.filter
      isNetworkEvent = [] ∧
    (messageListener trivialHandlerEnv { action := "bogus" }).1.filter
      isStorageWrite = [] :=
  unknown_action_response trivialHandlerEnv { action := "bogus" }
    (by decide) (by decide) (by decide)

/-- C5: when the local write of the audio bytes fails (the save step's
errors are caught internally), the delivery step still executes — the run's
trace is the failed save followed by the full upload sequence handed the
synthesized audio. -/
theorem save_failure_still_delivers (env : BackgroundEnv) (text : String)
    (config : FishConfig) (audioBlob : Blob)
    (hc : checkedFishConfig env.fishConfig = some config)
    (ht : env.ttsResult = some audioBlob)
    (hsave : env.saveOk = false) :
    ∃ pre, (generateTTSAndSaveLocally env text).1
        = pre ++ sendSlackAudioAndImage env audioBlob (voiceNoteFilename env.now)
            (voiceNoteMessage text) ∧
      Event.download (voiceNoteFullPath env.now) ∈ pre ∧
      Event.logMsg "Download error" ∈ pre := by
  unfold generateTTSAndSaveLocally
  rw [hc, ht]
  refine ⟨[Event.storageGet "fishConfig", Event.netTTS text config.voiceId] ++
    saveAudioToDownloads env.saveOk (voiceNoteFullPath env.now), ?_, ?_, ?_⟩
  · simp
  · simp [saveAudioToDownloads]
  · rw [hsave]
    simp [saveAudioToDownloads]

/-- An environment whose synthesis succeeds but whose local save fails and
whose messaging configuration is absent. -/
def saveFailBenv : BackgroundEnv :=
  { slackConfig := none, fishConfig := some ⟨"key", "voice"⟩, slack := failSlackEnv,
    ttsResult := some ⟨[1, 2], "audio/mpeg"⟩, imageResult := none,
    saveOk := false, now := 0 }

/-- C5 witness: the failed-save run on a concrete environment. -/
theorem save_failure_still_delivers_witness :
    ∃ pre, (generateTTSAndSaveLocally saveFailBenv "ship it").1
        = pre ++ sendSlackAudioAndImage saveFailBenv ⟨[1, 2], "audio/mpeg"⟩
            (voiceNoteFilename saveFailBenv.now) (voiceNoteMessage "ship it") ∧
      Event.download (voiceNoteFullPath saveFailBenv.now) ∈ pre ∧
      Event.logMsg "Download error" ∈ pre :=
  save_failure_still_delivers saveFailBenv "ship it" ⟨"key", "voice"⟩
    ⟨[1, 2], "audio/mpeg"⟩ (by decide) rfl rfl

/-- C6: when the companion image fails to load, the batch degrades to
audio-only — the audio upload still proceeds to its commit (the run's only
commit call lists exactly the audio descriptor), the image failure is
logged, and the pipeline run still reports success. -/
theorem image_failure_degrades (env : BackgroundEnv) (text : String)
    (fc : FishConfig) (audioBlob : Blob) (sc : SlackConfig) (slot : UploadSlot)
    (hfc : checkedFishConfig env.fishConfig = some fc)
    (htts : env.ttsResult = some audioBlob)
    (hsc : checkedSlackConfig env.slackConfig = some sc)
    (himg : env.imageResult = none)
    (hslot : env.slack.getUploadURL (voiceNoteFilename env.now)
      audioBlob.bytes.length = some slot)
    (hpost : env.slack.postBytesOk slot.upload_url = true) :
    commitCalls (generateTTSAndSaveLocally env text).1
      = [([⟨slot.file_id, voiceNoteFilename env.now⟩], sc.channelId, none)] ∧
    Event.logMsg "Failed to load SpongeBob image" ∈
      (generateTTSAndSaveLocally env text).1 ∧
    (generateTTSAndSaveLocally env text).2 = true := by
  cases hsv : env.saveOk <;> cases hco : env.slack.completeOk <;>
    simp [generateTTSAndSaveLocally, hfc, htts, sendSlackAudioAndImage, hsc, himg,
      uploadFileToSlack, hslot, hpost, saveAudioToDownloads, hsv, hco,
      commitCalls, hasContent]

/-- A Slack service that accepts every request. -/
def okSlackEnv : SlackEnv :=
  { getUploadURL := fun _ _ => some ⟨"uploadurl", "fileid"⟩
    postBytesOk := fun _ => true, completeOk := true }

/-- An environment in which everything succeeds except the companion-image
load. -/
def imageFailBenv : BackgroundEnv :=
  { slackConfig := some ⟨"C123", "xoxp"⟩, fishConfig := some ⟨"key", "voice"⟩,
    slack := okSlackEnv, ttsResult := some ⟨[1, 2], "audio/mpeg"⟩,
    imageResult := none, saveOk := true, now := 0 }

/-- C6 witness: the degraded run on a concrete environment. -/
theorem image_failure_degrades_witness :
    commitCalls (generateTTSAndSaveLocally imageFailBenv "hi").1
      = [([⟨"fileid", voiceNoteFilename imageFailBenv.now⟩], "C123", none)] ∧
    Event.logMsg "Failed to load SpongeBob image" ∈
      (generateTTSAndSaveLocally imageFailBenv "hi").1 ∧
    (generateTTSAndSaveLocally imageFailBenv "hi").2 = true :=
  image_failure_degrades imageFailBenv "hi" ⟨"key", "voice"⟩
    ⟨[1, 2], "audio/mpeg"⟩ ⟨"C123", "xoxp"⟩ ⟨"uploadurl", "fileid"⟩
    (by decide) rfl (by decide) rfl rfl rfl

/-- C7: a job that fails slot acquisition or byte transfer is never
referenced by a commit call — its per-job upload issues no commit — and a
batch whose jobs all fail issues no commit call at all. -/
theorem failed_jobs_no_commit (env : SlackEnv) (benv : BackgroundEnv)
    (fileBlob audioBlob : Blob) (filename message : String) (config : SlackConfig) :
    (JobFails env filename fileBlob.bytes.length →
      commitCalls (uploadFileToSlack env fileBlob filename message config) = [] ∧
      commitCalls (uploadImageToSlack env fileBlob filename config) = []) ∧
    (JobFails benv.slack filename audioBlob.bytes.length →
      (∀ img, benv.imageResult = some img →
        JobFails benv.slack spongebobFilename img.bytes.length) →
      commitCalls (sendSlackAudioAndImage benv audioBlob filename message) = []) := by
  constructor
  · intro h
    exact ⟨commitCalls_uploadFile_nil env fileBlob filename message config h,
      commitCalls_uploadImage_nil env fileBlob filename config h⟩
  · intro haud himg
    unfold sendSlackAudioAndImage
    rcases hsc : checkedSlackConfig benv.slackConfig with _ | sc
    · simp [commitCalls]
    · rcases hid : benv.imageResult with _ | img
      · rw [commitCalls_cons_storageGet, commitCalls_cons_fetchImage,
          commitCalls_cons_log, commitCalls_cons_log]
        exact commitCalls_uploadFile_nil benv.slack audioBlob filename "" sc haud
      · rw [commitCalls_cons_storageGet, commitCalls_cons_fetchImage,
          commitCalls_append,
          commitCalls_uploadFile_nil benv.slack audioBlob filename "" sc haud,
          commitCalls_uploadImage_nil benv.slack img spongebobFilename sc
            (himg img hid)]
        rfl

/-- An environment in which the image loads but every upload request
fails. -/
def allFailBenv : BackgroundEnv :=
  { slackConfig := some ⟨"C123", "xoxp"⟩, fishConfig := some ⟨"key", "voice"⟩,
    slack := failSlackEnv, ttsResult := some ⟨[1, 2], "audio/mpeg"⟩,
    imageResult := some ⟨[9], "image/png"⟩, saveOk := true, now := 0 }

/-- C7 witness: with every slot acquisition failing, neither the single
job nor the whole batch commits. -/
theorem failed_jobs_no_commit_witness :
    commitCalls (uploadFileToSlack failSlackEnv ⟨[1, 2], "audio/mpeg"⟩
      "a.mp3" "" ⟨"C123", "xoxp"⟩) = [] ∧
    commitCalls (sendSlackAudioAndImage allFailBenv ⟨[1, 2], "audio/mpeg"⟩
      "a.mp3" "") = [] := by
  have h := failed_jobs_no_commit failSlackEnv allFailBenv
    ⟨[1, 2], "audio/mpeg"⟩ ⟨[1, 2], "audio/mpeg"⟩ "a.mp3" "" ⟨"C123", "xoxp"⟩
  exact ⟨(h.1 (Or.inl rfl)).1,
    h.2 (Or.inl rfl) (fun img _ => Or.inl rfl)⟩

/-- C8: a run that reaches the local-persistence step starts a download of
exactly `unmute/audio/voice_note_<epoch-ms>.mp3` for the run's clock value,
the full path is the fixed namespace applied to the filename, and the
filename is injective in the timestamp (timestamp-unique names, so distinct
timestamps can never overwrite each other). -/
theorem timestamped_filename (env : BackgroundEnv) (text : String)
    (fc : FishConfig) (audioBlob : Blob)
    (hfc : checkedFishConfig env.fishConfig = some fc)
    (htts : env.ttsResult = some audioBlob) :
    Event.download (voiceNoteFullPath env.now) ∈
      (generateTTSAndSaveLocally env text).1 ∧
    (∀ ts : Nat, voiceNoteFullPath ts
      = "unmute/audio/" ++ ("voice_note_" ++ String.mk (decimalChars ts) ++ ".mp3")) ∧
    Function.Injective voiceNoteFilename := by
  refine ⟨?_, fun ts => rfl, voiceNoteFilename_injective⟩
  unfold generateTTSAndSaveLocally
  rw [hfc, htts]
  simp [saveAudioToDownloads]

/-- C8 witness: the download path of a concrete run. -/
theorem timestamped_filename_witness :
    Event.download (voiceNoteFullPath saveFailBenv.now) ∈
      (generateTTSAndSaveLocally saveFailBenv "hi").1 ∧
    Function.Injective voiceNoteFilename :=
  have h := timestamped_filename saveFailBenv "hi" ⟨"key", "voice"⟩
    ⟨[1, 2], "audio/mpeg"⟩ (by decide) rfl
  ⟨h.1, h.2.2⟩

/-- An environment in which every step succeeds, including the
companion-image load. -/
def allOkBenv : BackgroundEnv :=
  { slackConfig := some ⟨"C123", "xoxp"⟩, fishConfig := some ⟨"key", "voice"⟩,
    slack := okSlackEnv, ttsResult := some ⟨[1, 2], "audio/mpeg"⟩,
    imageResult := some ⟨[9], "image/png"⟩, saveOk := true, now := 0 }

/-- C1 counterexample: on a fully successful batch in which both the audio
and the image job reach the uploaded stage, the code issues two commit
calls, not one — there is no single commit call listing the whole batch. -/
theorem single_batch_commit_refuted :
    (commitCalls (sendSlackAudioAndImage allOkBenv ⟨[1, 2], "audio/mpeg"⟩
      "voice_note_1.mp3" "")).length = 2 ∧
    ¬ ∃ call, commitCalls (sendSlackAudioAndImage allOkBenv ⟨[1, 2], "audio/mpeg"⟩
      "voice_note_1.mp3" "") = [call] := by
  have h2 : (commitCalls (sendSlackAudioAndImage allOkBenv ⟨[1, 2], "audio/mpeg"⟩
      "voice_note_1.mp3" "")).length = 2 := by decide
  refine ⟨h2, ?_⟩
  rintro ⟨call, hcall⟩
  rw [hcall] at h2
  simp at h2

/-- C1 (amended): on a batch in which both jobs reach the uploaded stage,
the code issues exactly two commit calls, each listing exactly its own
job's descriptor — the audio job's commit first and the image job's commit
second, so the audio descriptor is submitted before the image descriptor. -/
theorem commit_per_job_audio_first (benv : BackgroundEnv)
    (audioBlob imageBlob : Blob) (filename message : String)
    (config : SlackConfig) (aslot islot : UploadSlot)
    (hsc : checkedSlackConfig benv.slackConfig = some config)
    (himg : benv.imageResult = some imageBlob)
    (haslot : benv.slack.getUploadURL filename audioBlob.bytes.length = some aslot)
    (hapost : benv.slack.postBytesOk aslot.upload_url = true)
    (hislot : benv.slack.getUploadURL spongebobFilename imageBlob.bytes.length
      = some islot)
    (hipost : benv.slack.postBytesOk islot.upload_url = true) :
    commitCalls (sendSlackAudioAndImage benv audioBlob filename message)
      = [([⟨aslot.file_id, filename⟩], config.channelId, none),
         ([⟨islot.file_id, spongebobFilename⟩], config.channelId, none)] := by
  cases hco : benv.slack.completeOk <;>
    simp [sendSlackAudioAndImage, hsc, himg, uploadFileToSlack, uploadImageToSlack,
      haslot, hapost, hislot, hipost, hco, commitCalls, hasContent]

/-- C1 witness (for the amended statement): the two ordered commit calls of
a concrete fully successful batch. -/
theorem commit_per_job_audio_first_witness :
    commitCalls (sendSlackAudioAndImage allOkBenv ⟨[1, 2], "audio/mpeg"⟩
      "a.mp3" "hello")
      = [([⟨"fileid", "a.mp3"⟩], "C123", none),
         ([⟨"fileid", spongebobFilename⟩], "C123", none)] :=
  commit_per_job_audio_first allOkBenv ⟨[1, 2], "audio/mpeg"⟩ ⟨[9], "image/png"⟩
    "a.mp3" "hello" ⟨"C123", "xoxp"⟩ ⟨"uploadurl", "fileid"⟩ ⟨"uploadurl", "fileid"⟩
    (by decide) rfl rfl rfl rfl rfl

end Unmute
